import Mathlib

/-!
Verification of the Baltimore gentrification mapping pipeline
(`baltimore_gentrification_real_data.py`).

The pipeline is embedded shallowly:
* `FVal` models a pandas/NumPy float cell: `nan`, signed infinity, or a
  finite value (idealised as a rational).  The arithmetic (`fadd`, `fsub`,
  `fmul`, `fdiv`) and the comparisons follow IEEE-754 semantics as NumPy
  implements them (`0/0 = nan`, `q/0 = ±inf`, comparisons with `nan` are
  false); `listMin`/`listMax` are the pandas reductions that skip `nan`.
* `deriveRow`/`get_census_data` model the acquisition and derivation stage,
  `calculate_gentrification_scores` the scoring stage, and
  `create_real_data_map`/`save_map` the presentation stage, each translated
  from the corresponding Python function.
-/

/-- A pandas/NumPy float cell: not-a-number, a signed infinity
(`inf true` is `+∞`, `inf false` is `-∞`), or a finite rational. -/
inductive FVal where
  | nan : FVal
  | inf : Bool → FVal
  | val : ℚ → FVal
deriving DecidableEq, Repr

/-- IEEE negation. -/
def fneg : FVal → FVal
  | .nan => .nan
  | .inf s => .inf (!s)
  | .val a => .val (-a)

/-- IEEE addition: `nan` propagates, opposite infinities give `nan`. -/
def fadd : FVal → FVal → FVal
  | .nan, _ => .nan
  | _, .nan => .nan
  | .inf s, .inf t => if s = t then .inf s else .nan
  | .inf s, .val _ => .inf s
  | .val _, .inf t => .inf t
  | .val a, .val b => .val (a + b)

/-- IEEE subtraction, as addition of the negation. -/
def fsub (a b : FVal) : FVal := fadd a (fneg b)

/-- IEEE multiplication: `nan` propagates, `0 * ∞ = nan`, signs multiply. -/
def fmul : FVal → FVal → FVal
  | .nan, _ => .nan
  | _, .nan => .nan
  | .inf s, .inf t => .inf (s == t)
  | .inf s, .val b => if b = 0 then .nan else .inf (s == decide (0 < b))
  | .val a, .inf t => if a = 0 then .nan else .inf (t == decide (0 < a))
  | .val a, .val b => .val (a * b)

/-- IEEE division as NumPy performs it on an unsigned zero: `0/0 = nan`,
`q/0 = ±inf` by the sign of `q`, `∞/∞ = nan`, finite over infinite is `0`. -/
def fdiv : FVal → FVal → FVal
  | .nan, _ => .nan
  | _, .nan => .nan
  | .inf _, .inf _ => .nan
  | .inf s, .val b => if b = 0 then .inf s else .inf (s == decide (0 < b))
  | .val _, .inf _ => .val 0
  | .val a, .val b =>
      if b = 0 then (if a = 0 then .nan else .inf (decide (0 < a)))
      else .val (a / b)

/-- IEEE strict greater-than: any comparison with `nan` is false. -/
def fgt : FVal → FVal → Bool
  | .nan, _ => false
  | _, .nan => false
  | .inf s, .inf t => s && !t
  | .inf s, .val _ => s
  | .val _, .inf t => !t
  | .val a, .val b => decide (b < a)

/-- IEEE less-or-equal: any comparison with `nan` is false. -/
def fle : FVal → FVal → Bool
  | .nan, _ => false
  | _, .nan => false
  | .inf s, .inf t => !s || t
  | .inf s, .val _ => !s
  | .val _, .inf t => t
  | .val a, .val b => decide (a ≤ b)

/-- The binary `nan`-skipping minimum underlying the pandas `min` reduction. -/
def fnanmin : FVal → FVal → FVal
  | .nan, b => b
  | a, .nan => a
  | a, b => if fle a b then a else b

/-- The binary `nan`-skipping maximum underlying the pandas `max` reduction. -/
def fnanmax : FVal → FVal → FVal
  | .nan, b => b
  | a, .nan => a
  | a, b => if fle b a then a else b

/-- Pandas `Series.min()` with the default `skipna=True`; `nan` on an empty
or all-`nan` column. -/
def listMin (L : List FVal) : FVal := L.foldr fnanmin .nan

/-- Pandas `Series.max()` with the default `skipna=True`. -/
def listMax (L : List FVal) : FVal := L.foldr fnanmax .nan

/-- Pandas `Series.fillna(d)`: replaces `nan` (and only `nan`) by `d`. -/
def fillna (d : ℚ) : FVal → FVal
  | .nan => .val d
  | v => v

/-- One raw row of the Census response after `pd.to_numeric(errors=coerce)`:
unparsable cells are `nan`.  The geographic identifiers stay strings. -/
structure RawRow where
  state : String
  county : String
  tract : String
  median_income : FVal
  median_rent : FVal
  bachelors_degree : FVal
  total_education : FVal
  total_commute : FVal
  public_transit_commute : FVal
  owner_occupied : FVal
  total_housing : FVal
deriving DecidableEq, Repr

/-- A filtered region record as returned by `get_census_data`
(the projection onto the six retained columns). -/
structure RegionRecord where
  tract_id : String
  median_income : FVal
  median_rent : FVal
  education_rate : FVal
  transit_rate : FVal
  homeownership_rate : FVal
deriving DecidableEq, Repr

/-- A derived percentage column: `(num / den * 100).fillna(0)`
(lines 50-57 of the source). -/
def derivedRate (num den : FVal) : FVal :=
  fillna 0 (fmul (fdiv num den) (.val 100))

/-- Derivation of one record: the three percentage rates and the
concatenated tract identifier (lines 50-59 of the source). -/
def deriveRow (w : RawRow) : RegionRecord :=
  { tract_id := w.state ++ w.county ++ w.tract
    median_income := w.median_income
    median_rent := w.median_rent
    education_rate := derivedRate w.bachelors_degree w.total_education
    transit_rate := derivedRate w.public_transit_commute w.total_commute
    homeownership_rate := derivedRate w.owner_occupied w.total_housing }

/-- An HTTP response from the Census API: a status code and a payload;
`body = none` models a malformed payload (`response.json()` raising). -/
structure HttpResponse where
  status : Nat
  body : Option (List RawRow)
deriving DecidableEq, Repr

/-- The message of the exception re-raised by `get_census_data` on any
failure (line 74 of the source). -/
def apiFailureMsg : String :=
  "US Census Bureau API is unavailable. No mock data will be used."

/-- `get_census_data`: on a 200 response with a well-formed payload, derive
the percentage columns and filter out rows with non-positive income or rent
(lines 39-74); any failure (network error modelled as `none`, non-200
status, malformed payload) raises the fatal exception, with no fallback. -/
def get_census_data (resp : Option HttpResponse) : Except String (List RegionRecord) :=
  match resp with
  | none => .error apiFailureMsg
  | some h =>
    if h.status = 200 then
      match h.body with
      | none => .error apiFailureMsg
      | some rows =>
        .ok (((rows.map deriveRow).filter fun c => fgt c.median_income (.val 0)).filter
              fun c => fgt c.median_rent (.val 0))
    else .error apiFailureMsg

/-- Min-max normalisation of one cell against a column
(the pattern of lines 95-116 of the source). -/
def minmax_norm (L : List FVal) (x : FVal) : FVal :=
  fdiv (fsub x (listMin L)) (fsub (listMax L) (listMin L))

/-- `income_score` column (lines 95-98). -/
def income_score (l : List RegionRecord) (r : RegionRecord) : FVal :=
  minmax_norm (l.map fun s => s.median_income) r.median_income

/-- `education_score` column (lines 101-104). -/
def education_score (l : List RegionRecord) (r : RegionRecord) : FVal :=
  minmax_norm (l.map fun s => s.education_rate) r.education_rate

/-- `rent_score` column (lines 107-110). -/
def rent_score (l : List RegionRecord) (r : RegionRecord) : FVal :=
  minmax_norm (l.map fun s => s.median_rent) r.median_rent

/-- `ownership_score` column: the inverted normalisation (lines 113-116). -/
def ownership_score (l : List RegionRecord) (r : RegionRecord) : FVal :=
  fsub (.val 1) (minmax_norm (l.map fun s => s.homeownership_rate) r.homeownership_rate)

/-- `gentrification_risk` column: the weighted sum of the four score
columns, in Python evaluation order (lines 119-124). -/
def gentrification_risk (l : List RegionRecord) (r : RegionRecord) : FVal :=
  fadd (fadd (fadd (fmul (income_score l r) (.val (3/10)))
                   (fmul (education_score l r) (.val (1/4))))
             (fmul (rent_score l r) (.val (1/4))))
       (fmul (ownership_score l r) (.val (1/5)))

/-- A scored record: the region record enriched with the five score
columns. -/
structure ScoredRecord extends RegionRecord where
  income_score : FVal
  education_score : FVal
  rent_score : FVal
  ownership_score : FVal
  gentrification_risk : FVal
deriving DecidableEq, Repr

/-- `calculate_gentrification_scores` (lines 91-126): adds the five score
columns to every record and returns the enriched table. -/
def calculate_gentrification_scores (l : List RegionRecord) : List ScoredRecord :=
  l.map fun r =>
    { toRegionRecord := r
      income_score := income_score l r
      education_score := education_score l r
      rent_score := rent_score l r
      ownership_score := ownership_score l r
      gentrification_risk := gentrification_risk l r }

/-- A map marker: its fill colour and its human-readable level label. -/
structure Marker where
  color : String
  level : String
deriving DecidableEq, Repr

/-- Income-level classification (lines 154-163). -/
def classify_income (s : FVal) : Marker :=
  if fgt s (.val (66/100)) then ⟨"#FF1744", "High Income"⟩
  else if fgt s (.val (33/100)) then ⟨"#FF9800", "Medium Income"⟩
  else ⟨"#4CAF50", "Low Income"⟩

/-- Education-level classification (lines 166-175). -/
def classify_education (s : FVal) : Marker :=
  if fgt s (.val (66/100)) then ⟨"#9C27B0", "High Education"⟩
  else if fgt s (.val (33/100)) then ⟨"#2196F3", "Medium Education"⟩
  else ⟨"#093A28", "Low Education"⟩

/-- Gentrification-risk classification (lines 178-187). -/
def classify_risk (s : FVal) : Marker :=
  if fgt s (.val (66/100)) then ⟨"#740127", "High Gentrification Risk"⟩
  else if fgt s (.val (33/100)) then ⟨"#FFFB0A", "Medium Gentrification Risk"⟩
  else ⟨"#5DD270", "Low Gentrification Risk"⟩

/-- The output document: the scored records it embeds (each record appears
in the marker popups), the three markers per record, the legend tract
count, and whether the intro modal has been injected. -/
structure MapDoc where
  records : List ScoredRecord
  markers : List Marker
  legend_tract_count : Nat
  intro_modal : Bool
deriving DecidableEq, Repr

/-- `create_real_data_map` (lines 128-323): fetch, score, then emit one
income, one education and one risk marker per record plus the legend. -/
def create_real_data_map (resp : Option HttpResponse) : Except String MapDoc :=
  match get_census_data resp with
  | .error e => .error e
  | .ok cd =>
    .ok { records := calculate_gentrification_scores cd
          markers := ((calculate_gentrification_scores cd).map fun r =>
            [classify_income r.income_score, classify_education r.education_score,
             classify_risk r.gentrification_risk]).flatten
          legend_tract_count := cd.length
          intro_modal := false }

/-- `save_map` (lines 325-351): build the map and inject the intro modal
into the saved document; an acquisition failure propagates and no document
is produced. -/
def save_map (resp : Option HttpResponse) : Except String MapDoc :=
  match create_real_data_map resp with
  | .error e => .error e
  | .ok m => .ok { m with intro_modal := true }

/-- Whether a cell is a finite value inside the closed unit interval. -/
def inUnitInterval : FVal → Bool
  | .val q => decide (0 ≤ q) && decide (q ≤ 1)
  | _ => false
theorem listMin_cons (a : FVal) (t : List FVal) : listMin (a :: t) = fnanmin a (listMin t) := rfl

theorem listMax_cons (a : FVal) (t : List FVal) : listMax (a :: t) = fnanmax a (listMax t) := rfl

theorem fnanmin_val (a b : ℚ) : fnanmin (.val a) (.val b) = .val (min a b) := by
  by_cases h : a ≤ b
  · simp [fnanmin, fle, h, min_eq_left h]
  · simp [fnanmin, fle, h, min_eq_right (le_of_not_le h)]

theorem fnanmax_val (a b : ℚ) : fnanmax (.val a) (.val b) = .val (max a b) := by
  by_cases h : b ≤ a
  · simp [fnanmax, fle, h, max_eq_left h]
  · simp [fnanmax, fle, h, max_eq_right (le_of_not_le h)]

theorem listMin_spec (L : List FVal) (h : ∀ v ∈ L, ∃ p, v = FVal.val p) (hne : L ≠ []) :
    ∃ m, listMin L = FVal.val m ∧ FVal.val m ∈ L ∧ ∀ q, FVal.val q ∈ L → m ≤ q := by
  induction L with
  | nil => exact absurd rfl hne
  | cons a t ih =>
    obtain ⟨p, rfl⟩ := h a (List.mem_cons_self a t)
    by_cases ht : t = []
    · subst ht
      refine ⟨p, rfl, List.mem_cons_self _ _, ?_⟩
      intro q hq
      rcases List.mem_singleton.1 hq with hq2
      exact le_of_eq (FVal.val.inj hq2).symm
    · obtain ⟨m, hm, hmem, hle⟩ := ih (fun v hv => h v (List.mem_cons_of_mem _ hv)) ht
      refine ⟨min p m, ?_, ?_, ?_⟩
      · rw [listMin_cons, hm, fnanmin_val]
      · rcases min_cases p m with ⟨h1, _⟩ | ⟨h1, _⟩
        · rw [h1]; exact List.mem_cons_self _ _
        · rw [h1]; exact List.mem_cons_of_mem _ hmem
      · intro q hq
        rcases List.mem_cons.1 hq with h1 | h1
        · exact le_trans (min_le_left p m) (le_of_eq (FVal.val.inj h1).symm)
        · exact le_trans (min_le_right p m) (hle q h1)

theorem listMax_spec (L : List FVal) (h : ∀ v ∈ L, ∃ p, v = FVal.val p) (hne : L ≠ []) :
    ∃ M, listMax L = FVal.val M ∧ FVal.val M ∈ L ∧ ∀ q, FVal.val q ∈ L → q ≤ M := by
  induction L with
  | nil => exact absurd rfl hne
  | cons a t ih =>
    obtain ⟨p, rfl⟩ := h a (List.mem_cons_self a t)
    by_cases ht : t = []
    · subst ht
      refine ⟨p, rfl, List.mem_cons_self _ _, ?_⟩
      intro q hq
      rcases List.mem_singleton.1 hq with hq2
      exact le_of_eq (FVal.val.inj hq2)
    · obtain ⟨M, hM, hmem, hge⟩ := ih (fun v hv => h v (List.mem_cons_of_mem _ hv)) ht
      refine ⟨max p M, ?_, ?_, ?_⟩
      · rw [listMax_cons, hM, fnanmax_val]
      · rcases max_cases p M with ⟨h1, _⟩ | ⟨h1, _⟩
        · rw [h1]; exact List.mem_cons_self _ _
        · rw [h1]; exact List.mem_cons_of_mem _ hmem
      · intro q hq
        rcases List.mem_cons.1 hq with h1 | h1
        · exact le_trans (le_of_eq (FVal.val.inj h1)) (le_max_left p M)
        · exact le_trans (hge q h1) (le_max_right p M)

theorem listMin_const (L : List FVal) (c : ℚ) (h : ∀ v ∈ L, v = FVal.val c) (hne : L ≠ []) :
    listMin L = FVal.val c := by
  induction L with
  | nil => exact absurd rfl hne
  | cons a t ih =>
    have ha := h a (List.mem_cons_self a t)
    subst ha
    by_cases ht : t = []
    · subst ht; rfl
    · rw [listMin_cons, ih (fun v hv => h v (List.mem_cons_of_mem _ hv)) ht, fnanmin_val, min_self]

theorem listMax_const (L : List FVal) (c : ℚ) (h : ∀ v ∈ L, v = FVal.val c) (hne : L ≠ []) :
    listMax L = FVal.val c := by
  induction L with
  | nil => exact absurd rfl hne
  | cons a t ih =>
    have ha := h a (List.mem_cons_self a t)
    subst ha
    by_cases ht : t = []
    · subst ht; rfl
    · rw [listMax_cons, ih (fun v hv => h v (List.mem_cons_of_mem _ hv)) ht, fnanmax_val, max_self]

theorem minmax_norm_val (L : List FVal) (h : ∀ v ∈ L, ∃ p, v = FVal.val p) (hne : L ≠ [])
    (hd : listMin L ≠ listMax L) (x : ℚ) (hx : FVal.val x ∈ L) :
    ∃ m M, listMin L = FVal.val m ∧ listMax L = FVal.val M ∧ m < M ∧ m ≤ x ∧ x ≤ M ∧
      minmax_norm L (FVal.val x) = FVal.val ((x - m) / (M - m)) := by
  obtain ⟨m, hm, hmmem, hmle⟩ := listMin_spec L h hne
  obtain ⟨M, hM, hMmem, hMge⟩ := listMax_spec L h hne
  have hmM : m ≤ M := hmle M hMmem
  have hne2 : m ≠ M := by
    intro hEq
    exact hd (by rw [hm, hM, hEq])
  have hlt : m < M := lt_of_le_of_ne hmM hne2
  have hsub : M - m ≠ 0 := sub_ne_zero.2 (ne_of_gt hlt)
  refine ⟨m, M, hm, hM, hlt, hmle x hx, hMge x hx, ?_⟩
  rw [minmax_norm, hm, hM]
  show fdiv (fadd (FVal.val x) (fneg (FVal.val m))) (fadd (FVal.val M) (fneg (FVal.val m))) = _
  simp only [fneg, fadd, fdiv]
  rw [if_neg (by rw [← sub_eq_add_neg]; exact hsub)]
  rw [sub_eq_add_neg, sub_eq_add_neg]

theorem minmax_norm_const (L : List FVal) (c : ℚ) (h : ∀ v ∈ L, v = FVal.val c) (hne : L ≠ []) :
    minmax_norm L (FVal.val c) = FVal.nan := by
  rw [minmax_norm, listMin_const L c h hne, listMax_const L c h hne]
  show fdiv (fadd (FVal.val c) (fneg (FVal.val c))) (fadd (FVal.val c) (fneg (FVal.val c))) = _
  simp [fneg, fadd, fdiv]

theorem minmax_norm_unit (L : List FVal) (h : ∀ v ∈ L, ∃ p, v = FVal.val p) (hne : L ≠ [])
    (hd : listMin L ≠ listMax L) (x : ℚ) (hx : FVal.val x ∈ L) :
    ∃ q, minmax_norm L (FVal.val x) = FVal.val q ∧ 0 ≤ q ∧ q ≤ 1 := by
  obtain ⟨m, M, _, _, hlt, hmx, hxM, hres⟩ := minmax_norm_val L h hne hd x hx
  have hpos : (0 : ℚ) < M - m := sub_pos.2 hlt
  refine ⟨(x - m) / (M - m), hres, ?_, ?_⟩
  · exact div_nonneg (sub_nonneg.2 hmx) (le_of_lt hpos)
  · rw [div_le_one hpos]
    exact sub_le_sub_right hxM m

/-- C1: the composite gentrification risk of a record equals exactly
income_score * 0.30 + education_score * 0.25 + rent_score * 0.25 +
ownership_score * 0.20 (with the ownership component already inverted),
and these fixed weights sum to 1. -/
theorem composite_weighted_sum (l : List RegionRecord) (r : RegionRecord) (i e t o : ℚ)
    (hi : income_score l r = FVal.val i) (he : education_score l r = FVal.val e)
    (ht : rent_score l r = FVal.val t) (ho : ownership_score l r = FVal.val o) :
    gentrification_risk l r =
      FVal.val (i * (3/10) + e * (1/4) + t * (1/4) + o * (1/5)) ∧
    (3/10 : ℚ) + 1/4 + 1/4 + 1/5 = 1 := by
  constructor
  · rw [gentrification_risk, hi, he, ht, ho]
    simp [fmul, fadd]
  · norm_num

def w1A : RegionRecord := ⟨"a", .val 100, .val 500, .val 10, .val 5, .val 30⟩

def w1B : RegionRecord := ⟨"b", .val 200, .val 900, .val 40, .val 9, .val 70⟩

theorem composite_weighted_sum_witness :
    income_score [w1A, w1B] w1B = FVal.val 1 ∧
    education_score [w1A, w1B] w1B = FVal.val 1 ∧
    rent_score [w1A, w1B] w1B = FVal.val 1 ∧
    ownership_score [w1A, w1B] w1B = FVal.val 0 ∧
    (gentrification_risk [w1A, w1B] w1B =
       FVal.val (1 * (3/10) + 1 * (1/4) + 1 * (1/4) + 0 * (1/5)) ∧
     (3/10 : ℚ) + 1/4 + 1/4 + 1/5 = 1) := by
  have hi : income_score [w1A, w1B] w1B = FVal.val 1 := by
    norm_num [income_score, minmax_norm, listMin, listMax, fnanmin, fnanmax, fle, fsub, fadd,
      fneg, fdiv, w1A, w1B]
  have he : education_score [w1A, w1B] w1B = FVal.val 1 := by
    norm_num [education_score, minmax_norm, listMin, listMax, fnanmin, fnanmax, fle, fsub, fadd,
      fneg, fdiv, w1A, w1B]
  have ht : rent_score [w1A, w1B] w1B = FVal.val 1 := by
    norm_num [rent_score, minmax_norm, listMin, listMax, fnanmin, fnanmax, fle, fsub, fadd,
      fneg, fdiv, w1A, w1B]
  have ho : ownership_score [w1A, w1B] w1B = FVal.val 0 := by
    norm_num [ownership_score, minmax_norm, listMin, listMax, fnanmin, fnanmax, fle, fsub, fadd,
      fneg, fdiv, w1A, w1B]
  exact ⟨hi, he, ht, ho, composite_weighted_sum [w1A, w1B] w1B 1 1 1 0 hi he ht ho⟩

/-- C2: any acquisition failure (network error, non-2xx status, malformed
payload) makes the pipeline raise the fatal no-mock-data error, and no
output document is produced. -/
theorem acquisition_failure_aborts (resp : Option HttpResponse)
    (hfail : resp = none ∨
      ∃ h, resp = some h ∧ (h.status < 200 ∨ 300 ≤ h.status ∨ h.body = none)) :
    get_census_data resp = .error apiFailureMsg ∧
    save_map resp = .error apiFailureMsg := by
  have hget : get_census_data resp = .error apiFailureMsg := by
    rcases hfail with rfl | ⟨h, rfl, hcase⟩
    · rfl
    · rcases hcase with hlt | hge | hbody
      · have hne : h.status ≠ 200 := by omega
        simp [get_census_data, hne]
      · have hne : h.status ≠ 200 := by omega
        simp [get_census_data, hne]
      · by_cases hs : h.status = 200
        · simp [get_census_data, hs, hbody]
        · simp [get_census_data, hs]
  refine ⟨hget, ?_⟩
  rw [save_map, create_real_data_map, hget]

theorem acquisition_failure_aborts_witness :
    get_census_data (some ⟨404, some []⟩) = .error apiFailureMsg ∧
    save_map (some ⟨404, some []⟩) = .error apiFailureMsg :=
  acquisition_failure_aborts (some ⟨404, some []⟩)
    (Or.inr ⟨⟨404, some []⟩, rfl, Or.inr (Or.inl (by norm_num))⟩)

def c3r : RegionRecord := ⟨"245100100", .val 50000, .val 1200, .val 10, .val 5, .val 40⟩

/-- C3 counterexample: on the one-record filtered set, min and max of each
indicator coincide, the normalisation divides zero by zero, and the
income score is nan, which does not lie in the unit interval. -/
theorem scores_unit_interval_cex :
    income_score [c3r] c3r = FVal.nan ∧ inUnitInterval (income_score [c3r] c3r) = false := by
  have h : income_score [c3r] c3r = FVal.nan := by
    norm_num [income_score, minmax_norm, listMin, listMax, fnanmin, fnanmax, fle, fsub, fadd,
      fneg, fdiv, c3r]
  exact ⟨h, by rw [h]; rfl⟩

/-- C3 (amended): in a non-empty filtered record set whose indicator
columns hold finite values and in which each of the four indicators has
distinct minimum and maximum, every normalized score of every record lies
in the closed unit interval. -/
theorem scores_unit_interval (l : List RegionRecord) (r : RegionRecord) (hr : r ∈ l)
    (hall : ∀ s ∈ l, (∃ q, s.median_income = FVal.val q) ∧
      (∃ q, s.education_rate = FVal.val q) ∧ (∃ q, s.median_rent = FVal.val q) ∧
      (∃ q, s.homeownership_rate = FVal.val q))
    (hd1 : listMin (l.map fun s => s.median_income) ≠ listMax (l.map fun s => s.median_income))
    (hd2 : listMin (l.map fun s => s.education_rate) ≠ listMax (l.map fun s => s.education_rate))
    (hd3 : listMin (l.map fun s => s.median_rent) ≠ listMax (l.map fun s => s.median_rent))
    (hd4 : listMin (l.map fun s => s.homeownership_rate) ≠
      listMax (l.map fun s => s.homeownership_rate)) :
    inUnitInterval (income_score l r) = true ∧
    inUnitInterval (education_score l r) = true ∧
    inUnitInterval (rent_score l r) = true ∧
    inUnitInterval (ownership_score l r) = true := by
  have hne : l ≠ [] := List.ne_nil_of_mem hr
  have hnemap : ∀ f : RegionRecord → FVal, l.map f ≠ [] := by
    intro f hmap
    exact hne (List.map_eq_nil_iff.1 hmap)
  obtain ⟨⟨i, hi⟩, ⟨e, he⟩, ⟨t, ht⟩, ⟨o, ho⟩⟩ := hall r hr
  have colOK : ∀ (f : RegionRecord → FVal), (∀ s ∈ l, ∃ q, f s = FVal.val q) →
      ∀ v ∈ l.map f, ∃ p, v = FVal.val p := by
    intro f hf v hv
    obtain ⟨s, hs, rfl⟩ := List.mem_map.1 hv
    exact hf s hs
  have h1 := minmax_norm_unit (l.map fun s => s.median_income)
    (colOK _ (fun s hs => (hall s hs).1)) (hnemap _) hd1 i
    (by rw [← hi]; exact List.mem_map_of_mem _ hr)
  have h2 := minmax_norm_unit (l.map fun s => s.education_rate)
    (colOK _ (fun s hs => (hall s hs).2.1)) (hnemap _) hd2 e
    (by rw [← he]; exact List.mem_map_of_mem _ hr)
  have h3 := minmax_norm_unit (l.map fun s => s.median_rent)
    (colOK _ (fun s hs => (hall s hs).2.2.1)) (hnemap _) hd3 t
    (by rw [← ht]; exact List.mem_map_of_mem _ hr)
  have h4 := minmax_norm_unit (l.map fun s => s.homeownership_rate)
    (colOK _ (fun s hs => (hall s hs).2.2.2)) (hnemap _) hd4 o
    (by rw [← ho]; exact List.mem_map_of_mem _ hr)
  obtain ⟨q1, hq1, hq1a, hq1b⟩ := h1
  obtain ⟨q2, hq2, hq2a, hq2b⟩ := h2
  obtain ⟨q3, hq3, hq3a, hq3b⟩ := h3
  obtain ⟨q4, hq4, hq4a, hq4b⟩ := h4
  refine ⟨?_, ?_, ?_, ?_⟩
  · rw [income_score, hi, hq1]
    simp [inUnitInterval, hq1a, hq1b]
  · rw [education_score, he, hq2]
    simp [inUnitInterval, hq2a, hq2b]
  · rw [rent_score, ht, hq3]
    simp [inUnitInterval, hq3a, hq3b]
  · rw [ownership_score, ho, hq4]
    show inUnitInterval (fadd (FVal.val 1) (fneg (FVal.val q4))) = true
    simp only [fneg, fadd, inUnitInterval]
    rw [Bool.and_eq_true, decide_eq_true_eq, decide_eq_true_eq]
    constructor
    · linarith
    · linarith

def w3A : RegionRecord := ⟨"a", .val 30000, .val 800, .val 12, .val 4, .val 35⟩

def w3B : RegionRecord := ⟨"b", .val 90000, .val 1600, .val 55, .val 11, .val 65⟩

theorem scores_unit_interval_witness :
    inUnitInterval (income_score [w3A, w3B] w3A) = true ∧
    inUnitInterval (education_score [w3A, w3B] w3A) = true ∧
    inUnitInterval (rent_score [w3A, w3B] w3A) = true ∧
    inUnitInterval (ownership_score [w3A, w3B] w3A) = true := by
  refine scores_unit_interval [w3A, w3B] w3A (by simp) ?_ ?_ ?_ ?_ ?_
  · intro s hs
    rcases List.mem_cons.1 hs with rfl | hs2
    · exact ⟨⟨30000, rfl⟩, ⟨12, rfl⟩, ⟨800, rfl⟩, ⟨35, rfl⟩⟩
    · rcases List.mem_singleton.1 hs2 with rfl
      exact ⟨⟨90000, rfl⟩, ⟨55, rfl⟩, ⟨1600, rfl⟩, ⟨65, rfl⟩⟩
  · norm_num [listMin, listMax, fnanmin, fnanmax, fle, w3A, w3B]
  · norm_num [listMin, listMax, fnanmin, fnanmax, fle, w3A, w3B]
  · norm_num [listMin, listMax, fnanmin, fnanmax, fle, w3A, w3B]
  · norm_num [listMin, listMax, fnanmin, fnanmax, fle, w3A, w3B]

def c4A : RegionRecord := ⟨"a", .val 50000, .val 900, .val 20, .val 6, .val 45⟩

def c4B : RegionRecord := ⟨"b", .val 50000, .val 1500, .val 35, .val 8, .val 60⟩

/-- C4 counterexample: both records share the same median income, so the
income normalisation divides zero by zero; the resulting income score is
nan, not the value 0 the claim demands. -/
theorem constant_indicator_cex :
    income_score [c4A, c4B] c4A = FVal.nan ∧ FVal.nan ≠ FVal.val 0 := by
  constructor
  · norm_num [income_score, minmax_norm, listMin, listMax, fnanmin, fnanmax, fle, fsub, fadd,
      fneg, fdiv, c4A, c4B]
  · exact fun h => FVal.noConfusion h

/-- C4 (amended): if an indicator holds the same finite value in every
record of the non-empty filtered set (the single-record case included),
then the normalized score of every record for that indicator is nan — the
zero-by-zero division is left in place, not replaced by 0. -/
theorem constant_indicator_nan (l : List RegionRecord) (hne : l ≠ []) :
    (∀ c, (∀ s ∈ l, s.median_income = FVal.val c) →
      ∀ r ∈ l, income_score l r = FVal.nan) ∧
    (∀ c, (∀ s ∈ l, s.education_rate = FVal.val c) →
      ∀ r ∈ l, education_score l r = FVal.nan) ∧
    (∀ c, (∀ s ∈ l, s.median_rent = FVal.val c) →
      ∀ r ∈ l, rent_score l r = FVal.nan) ∧
    (∀ c, (∀ s ∈ l, s.homeownership_rate = FVal.val c) →
      ∀ r ∈ l, ownership_score l r = FVal.nan) := by
  have hnemap : ∀ f : RegionRecord → FVal, l.map f ≠ [] := by
    intro f hmap
    exact hne (List.map_eq_nil_iff.1 hmap)
  have colConst : ∀ (f : RegionRecord → FVal) (c : ℚ), (∀ s ∈ l, f s = FVal.val c) →
      ∀ v ∈ l.map f, v = FVal.val c := by
    intro f c hf v hv
    obtain ⟨s, hs, rfl⟩ := List.mem_map.1 hv
    exact hf s hs
  refine ⟨?_, ?_, ?_, ?_⟩
  · intro c hc r hr
    rw [income_score, hc r hr]
    exact minmax_norm_const _ c (colConst _ c hc) (hnemap _)
  · intro c hc r hr
    rw [education_score, hc r hr]
    exact minmax_norm_const _ c (colConst _ c hc) (hnemap _)
  · intro c hc r hr
    rw [rent_score, hc r hr]
    exact minmax_norm_const _ c (colConst _ c hc) (hnemap _)
  · intro c hc r hr
    rw [ownership_score, hc r hr]
    rw [minmax_norm_const _ c (colConst _ c hc) (hnemap _)]
    rfl

def w4A : RegionRecord := ⟨"a", .val 40000, .val 1000, .val 25, .val 7, .val 50⟩

def w4B : RegionRecord := ⟨"b", .val 40000, .val 1000, .val 25, .val 9, .val 50⟩

theorem constant_indicator_nan_witness :
    income_score [w4A, w4B] w4A = FVal.nan ∧
    education_score [w4A, w4B] w4A = FVal.nan ∧
    rent_score [w4A, w4B] w4A = FVal.nan ∧
    ownership_score [w4A, w4B] w4A = FVal.nan := by
  have h := constant_indicator_nan [w4A, w4B] (by simp)
  have hmemA : w4A ∈ [w4A, w4B] := by simp
  have hinc : ∀ s ∈ [w4A, w4B], s.median_income = FVal.val 40000 := by
    intro s hs
    rcases List.mem_cons.1 hs with rfl | hs2
    · rfl
    · rcases List.mem_singleton.1 hs2 with rfl
      rfl
  have hedu : ∀ s ∈ [w4A, w4B], s.education_rate = FVal.val 25 := by
    intro s hs
    rcases List.mem_cons.1 hs with rfl | hs2
    · rfl
    · rcases List.mem_singleton.1 hs2 with rfl
      rfl
  have hrent : ∀ s ∈ [w4A, w4B], s.median_rent = FVal.val 1000 := by
    intro s hs
    rcases List.mem_cons.1 hs with rfl | hs2
    · rfl
    · rcases List.mem_singleton.1 hs2 with rfl
      rfl
  have hown : ∀ s ∈ [w4A, w4B], s.homeownership_rate = FVal.val 50 := by
    intro s hs
    rcases List.mem_cons.1 hs with rfl | hs2
    · rfl
    · rcases List.mem_singleton.1 hs2 with rfl
      rfl
  exact ⟨h.1 40000 hinc w4A hmemA, h.2.1 25 hedu w4A hmemA, h.2.2.1 1000 hrent w4A hmemA,
    h.2.2.2 50 hown w4A hmemA⟩

def c5RA : RawRow := ⟨"24", "510", "000400", .val 42000, .val 1000, .val 60, .val 400,
  .val 500, .val 80, .val 120, .val 400⟩

def c5RB : RawRow := ⟨"24", "510", "000500", .val 58000, .val 1400, .val 90, .val 450,
  .val 600, .val 70, .val 5, .val 0⟩

/-- C5 counterexample: a raw row with owner_occupied 5 over total_housing 0
passes both acquisition filters with homeownership rate plus-infinity, so
the filtered set below is reachable from a 200 response; the infinite rate
is the distinct maximum of its column, yet the ownership score of that
record is nan (1 minus infinity over infinity), not the claimed 0. -/
theorem ownership_inversion_cex :
    get_census_data (some ⟨200, some [c5RA, c5RB]⟩) = .ok [deriveRow c5RA, deriveRow c5RB] ∧
    (deriveRow c5RB).homeownership_rate =
      listMax ([deriveRow c5RA, deriveRow c5RB].map fun s => s.homeownership_rate) ∧
    listMin ([deriveRow c5RA, deriveRow c5RB].map fun s => s.homeownership_rate) ≠
      listMax ([deriveRow c5RA, deriveRow c5RB].map fun s => s.homeownership_rate) ∧
    ownership_score [deriveRow c5RA, deriveRow c5RB] (deriveRow c5RB) = FVal.nan ∧
    FVal.nan ≠ FVal.val 0 := by
  refine ⟨?_, ?_, ?_, ?_, fun h => FVal.noConfusion h⟩
  · norm_num [get_census_data, deriveRow, derivedRate, fillna, fmul, fdiv, fgt,
      List.filter, c5RA, c5RB]
  · norm_num [deriveRow, derivedRate, fillna, fmul, fdiv, listMax, fnanmax, fle, c5RA, c5RB]
  · norm_num [deriveRow, derivedRate, fillna, fmul, fdiv, listMin, listMax, fnanmin, fnanmax,
      fle, c5RA, c5RB]
    exact fun h => FVal.noConfusion h
  · norm_num [ownership_score, minmax_norm, deriveRow, derivedRate, fillna, fmul, fdiv,
      listMin, listMax, fnanmin, fnanmax, fle, fsub, fadd, fneg, c5RA, c5RB]

/-- C5 (amended): when the filtered set holds finite homeownership rates
with distinct minimum and maximum, a record whose rate equals the maximum
of the set gets ownership score exactly 0, and a record whose rate equals
the minimum gets exactly 1; an infinite rate (reachable through a zero
housing denominator) instead makes the score of the maximal record nan. -/
theorem ownership_inversion (l : List RegionRecord) (r : RegionRecord) (hr : r ∈ l)
    (hall : ∀ v ∈ l.map fun s => s.homeownership_rate, ∃ p, v = FVal.val p)
    (hd : listMin (l.map fun s => s.homeownership_rate) ≠
      listMax (l.map fun s => s.homeownership_rate)) :
    (r.homeownership_rate = listMax (l.map fun s => s.homeownership_rate) →
      ownership_score l r = FVal.val 0) ∧
    (r.homeownership_rate = listMin (l.map fun s => s.homeownership_rate) →
      ownership_score l r = FVal.val 1) := by
  have hne : l ≠ [] := List.ne_nil_of_mem hr
  have hnemap : (l.map fun s => s.homeownership_rate) ≠ [] := by
    intro hmap
    exact hne (List.map_eq_nil_iff.1 hmap)
  obtain ⟨x, hx⟩ := hall r.homeownership_rate (List.mem_map_of_mem _ hr)
  obtain ⟨m, M, hm2, hM2, hlt, _, _, hres⟩ :=
    minmax_norm_val _ hall hnemap hd x (hx ▸ List.mem_map_of_mem _ hr)
  constructor
  · intro hmax
    have hxM : x = M := FVal.val.inj (by rw [← hx, hmax, hM2])
    rw [ownership_score, hx, hres, hxM, div_self (sub_ne_zero.2 (ne_of_gt hlt))]
    show fadd (FVal.val 1) (fneg (FVal.val 1)) = _
    norm_num [fadd, fneg]
  · intro hmin
    have hxm : x = m := FVal.val.inj (by rw [← hx, hmin, hm2])
    rw [ownership_score, hx, hres, hxm, sub_self, zero_div]
    show fadd (FVal.val 1) (fneg (FVal.val 0)) = _
    norm_num [fadd, fneg]

def w5A : RegionRecord := ⟨"a", .val 60000, .val 1100, .val 30, .val 6, .val 30⟩

def w5B : RegionRecord := ⟨"b", .val 45000, .val 950, .val 22, .val 8, .val 70⟩

theorem ownership_inversion_witness :
    ownership_score [w5A, w5B] w5B = FVal.val 0 ∧
    ownership_score [w5A, w5B] w5A = FVal.val 1 := by
  have hall : ∀ v ∈ [w5A, w5B].map fun s => s.homeownership_rate, ∃ p, v = FVal.val p := by
    intro v hv
    rcases List.mem_cons.1 hv with rfl | hv2
    · exact ⟨30, rfl⟩
    · rcases List.mem_singleton.1 hv2 with rfl
      exact ⟨70, rfl⟩
  have hd : listMin ([w5A, w5B].map fun s => s.homeownership_rate) ≠
      listMax ([w5A, w5B].map fun s => s.homeownership_rate) := by
    norm_num [listMin, listMax, fnanmin, fnanmax, fle, w5A, w5B]
  constructor
  · exact (ownership_inversion [w5A, w5B] w5B (by simp) hall hd).1
      (by norm_num [listMax, fnanmax, fle, w5A, w5B])
  · exact (ownership_inversion [w5A, w5B] w5A (by simp) hall hd).2
      (by norm_num [listMin, fnanmin, fle, w5A, w5B])

/-- C6: every record with non-positive median income or non-positive
median rent is removed by the acquisition filter before scoring, so every
record in the fetched table, and every record embedded in the saved
document, has strictly positive income and rent. -/
theorem filter_nonpositive (resp : Option HttpResponse) (l : List RegionRecord)
    (hok : get_census_data resp = .ok l) :
    (∀ r ∈ l, fgt r.median_income (FVal.val 0) = true ∧
      fgt r.median_rent (FVal.val 0) = true) ∧
    (∀ doc, save_map resp = .ok doc → ∀ r ∈ doc.records,
      fgt r.median_income (FVal.val 0) = true ∧ fgt r.median_rent (FVal.val 0) = true) := by
  have hmem : ∀ r ∈ l, fgt r.median_income (FVal.val 0) = true ∧
      fgt r.median_rent (FVal.val 0) = true := by
    rcases resp with _ | h
    · simp [get_census_data] at hok
    · simp only [get_census_data] at hok
      by_cases hs : h.status = 200
      · rw [if_pos hs] at hok
        rcases hb : h.body with _ | rows
        · rw [hb] at hok
          simp at hok
        · rw [hb] at hok
          have hl : ((rows.map deriveRow).filter fun c =>
              fgt c.median_income (.val 0)).filter (fun c => fgt c.median_rent (.val 0)) = l := by
            simpa using hok
          intro r hr
          rw [← hl] at hr
          obtain ⟨hr1, h2⟩ := List.mem_filter.1 hr
          obtain ⟨hr0, h1⟩ := List.mem_filter.1 hr1
          exact ⟨h1, h2⟩
      · rw [if_neg hs] at hok
        simp at hok
  refine ⟨hmem, ?_⟩
  intro doc hdoc r hr
  have hc : create_real_data_map resp =
      .ok { records := calculate_gentrification_scores l
            markers := ((calculate_gentrification_scores l).map fun r =>
              [classify_income r.income_score, classify_education r.education_score,
               classify_risk r.gentrification_risk]).flatten
            legend_tract_count := l.length
            intro_modal := false } := by
    rw [create_real_data_map, hok]
  have hs2 : save_map resp =
      .ok { records := calculate_gentrification_scores l
            markers := ((calculate_gentrification_scores l).map fun r =>
              [classify_income r.income_score, classify_education r.education_score,
               classify_risk r.gentrification_risk]).flatten
            legend_tract_count := l.length
            intro_modal := true } := by
    rw [save_map, hc]
  rw [hs2] at hdoc
  injection hdoc with h
  subst h
  simp only [calculate_gentrification_scores] at hr
  obtain ⟨r0, hr0, rfl⟩ := List.mem_map.1 hr
  exact hmem r0 hr0

def raw6A : RawRow := ⟨"24", "510", "000100", .val 52000, .val 1300, .val 120, .val 600,
  .val 900, .val 150, .val 300, .val 800⟩

def raw6B : RawRow := ⟨"24", "510", "000200", .val (-1), .val 1100, .val 80, .val 500,
  .val 700, .val 90, .val 200, .val 600⟩

theorem filter_nonpositive_witness :
    get_census_data (some ⟨200, some [raw6A, raw6B]⟩) = .ok [deriveRow raw6A] ∧
    fgt (deriveRow raw6A).median_income (FVal.val 0) = true ∧
    fgt (deriveRow raw6A).median_rent (FVal.val 0) = true := by
  have hok : get_census_data (some ⟨200, some [raw6A, raw6B]⟩) = .ok [deriveRow raw6A] := by
    norm_num [get_census_data, deriveRow, derivedRate, fillna, fmul, fdiv, fgt,
      List.filter, raw6A, raw6B]
  have h := (filter_nonpositive (some ⟨200, some [raw6A, raw6B]⟩) [deriveRow raw6A] hok).1
    (deriveRow raw6A) (by simp)
  exact ⟨hok, h.1, h.2⟩

def c7raw : RawRow := ⟨"24", "510", "000300", .val 48000, .val 1250, .val 5, .val 0,
  .val 700, .val 90, .val 200, .val 600⟩

/-- C7 counterexample: a record whose education denominator is zero while
the numerator is 5 gets education rate plus-infinity, not 0 — the
fillna(0) step replaces nan only, and a nonzero count divided by zero is
infinite, not nan. -/
theorem zero_denominator_cex :
    (deriveRow c7raw).education_rate = FVal.inf true ∧ FVal.inf true ≠ FVal.val 0 := by
  constructor
  · norm_num [deriveRow, derivedRate, fillna, fmul, fdiv, c7raw]
  · exact fun h => FVal.noConfusion h

/-- C7 (amended): a derived rate whose denominator is absent is 0 for any
numerator, and so is a rate whose numerator is absent; with a zero
denominator the rate is 0 exactly when the numerator is zero (or absent),
while a nonzero numerator over a zero denominator yields a signed
infinity. -/
theorem zero_denominator_rate (num den : FVal) :
    derivedRate num FVal.nan = FVal.val 0 ∧
    derivedRate FVal.nan den = FVal.val 0 ∧
    derivedRate (FVal.val 0) (FVal.val 0) = FVal.val 0 ∧
    (∀ q : ℚ, q ≠ 0 → derivedRate (FVal.val q) (FVal.val 0) = FVal.inf (decide (0 < q))) := by
  refine ⟨?_, ?_, ?_, ?_⟩
  · cases num <;> rfl
  · cases den <;> rfl
  · norm_num [derivedRate, fillna, fmul, fdiv]
  · intro q hq
    simp [derivedRate, fdiv, hq, fmul, fillna]

theorem zero_denominator_rate_witness :
    derivedRate (FVal.val 3) FVal.nan = FVal.val 0 ∧
    derivedRate FVal.nan (FVal.val 7) = FVal.val 0 ∧
    derivedRate (FVal.val 0) (FVal.val 0) = FVal.val 0 ∧
    ((5 : ℚ) ≠ 0 ∧ derivedRate (FVal.val 5) (FVal.val 0) = FVal.inf (decide ((0 : ℚ) < 5))) := by
  have h := zero_denominator_rate (FVal.val 3) (FVal.val 7)
  exact ⟨h.1, h.2.1, h.2.2.1, by norm_num, h.2.2.2 5 (by norm_num)⟩

/-- C8: the presentation tier of a score is fixed by thresholding at 0.33
and 0.66: strictly above 0.66 is the high tier, strictly above 0.33 but
not above 0.66 is the medium tier, and every other score (including nan)
is the low tier, for each of the three marker classifications. -/
theorem tier_thresholds (s : FVal) :
    (fgt s (FVal.val (66/100)) = true →
      classify_income s = ⟨"#FF1744", "High Income"⟩ ∧
      classify_education s = ⟨"#9C27B0", "High Education"⟩ ∧
      classify_risk s = ⟨"#740127", "High Gentrification Risk"⟩) ∧
    (fgt s (FVal.val (66/100)) = false → fgt s (FVal.val (33/100)) = true →
      classify_income s = ⟨"#FF9800", "Medium Income"⟩ ∧
      classify_education s = ⟨"#2196F3", "Medium Education"⟩ ∧
      classify_risk s = ⟨"#FFFB0A", "Medium Gentrification Risk"⟩) ∧
    (fgt s (FVal.val (66/100)) = false → fgt s (FVal.val (33/100)) = false →
      classify_income s = ⟨"#4CAF50", "Low Income"⟩ ∧
      classify_education s = ⟨"#093A28", "Low Education"⟩ ∧
      classify_risk s = ⟨"#5DD270", "Low Gentrification Risk"⟩) := by
  refine ⟨?_, ?_, ?_⟩ <;> intros <;>
    exact ⟨by simp [classify_income, *], by simp [classify_education, *],
      by simp [classify_risk, *]⟩

theorem tier_thresholds_witness :
    (fgt (FVal.val (7/10)) (FVal.val (66/100)) = true ∧
      classify_income (FVal.val (7/10)) = ⟨"#FF1744", "High Income"⟩ ∧
      classify_education (FVal.val (7/10)) = ⟨"#9C27B0", "High Education"⟩ ∧
      classify_risk (FVal.val (7/10)) = ⟨"#740127", "High Gentrification Risk"⟩) ∧
    (fgt FVal.nan (FVal.val (66/100)) = false ∧ fgt FVal.nan (FVal.val (33/100)) = false ∧
      classify_income FVal.nan = ⟨"#4CAF50", "Low Income"⟩ ∧
      classify_education FVal.nan = ⟨"#093A28", "Low Education"⟩ ∧
      classify_risk FVal.nan = ⟨"#5DD270", "Low Gentrification Risk"⟩) := by
  have h1 : fgt (FVal.val (7/10)) (FVal.val (66/100)) = true := by norm_num [fgt]
  have hhi := (tier_thresholds (FVal.val (7/10))).1 h1
  have hlo := (tier_thresholds FVal.nan).2.2 rfl rfl
  exact ⟨⟨h1, hhi.1, hhi.2.1, hhi.2.2⟩, ⟨rfl, rfl, hlo.1, hlo.2.1, hlo.2.2⟩⟩

/-- C9: the scoring transform only enriches: it returns the table it was
given, record for record and in order, with every pre-existing field
unchanged, adding just the five score fields. -/
theorem scoring_preserves_fields (l : List RegionRecord) :
    (calculate_gentrification_scores l).map (fun sr => sr.toRegionRecord) = l := by
  rw [calculate_gentrification_scores, List.map_map]
  exact List.map_id l

def c10A : RegionRecord := ⟨"a", .val 35000, .val 700, .val 15, .val 5, .val 30⟩

def c10B : RegionRecord := ⟨"b", .val 65000, .val 1500, .val 45, .val 9, .inf true⟩

/-- C10 counterexample: a record whose homeownership rate is
plus-infinity (reachable through a zero housing denominator, as the C5
analysis shows) has a strictly larger rate than its finite peer and the
column minimum and maximum differ, yet its ownership score is nan, so the
claimed score comparison is false while the peer scores 1. -/
theorem normalization_monotone_cex :
    fgt c10B.homeownership_rate c10A.homeownership_rate = true ∧
    listMin ([c10A, c10B].map fun s => s.homeownership_rate) ≠
      listMax ([c10A, c10B].map fun s => s.homeownership_rate) ∧
    ownership_score [c10A, c10B] c10B = FVal.nan ∧
    ownership_score [c10A, c10B] c10A = FVal.val 1 ∧
    fle (ownership_score [c10A, c10B] c10B) (ownership_score [c10A, c10B] c10A) = false := by
  refine ⟨rfl, ?_, ?_, ?_, ?_⟩
  · norm_num [listMin, listMax, fnanmin, fnanmax, fle, c10A, c10B]
    exact fun h => FVal.noConfusion h
  · norm_num [ownership_score, minmax_norm, listMin, listMax, fnanmin, fnanmax, fle, fsub,
      fadd, fneg, fdiv, c10A, c10B]
  · norm_num [ownership_score, minmax_norm, listMin, listMax, fnanmin, fnanmax, fle, fsub,
      fadd, fneg, fdiv, c10A, c10B]
  · have hB : ownership_score [c10A, c10B] c10B = FVal.nan := by
      norm_num [ownership_score, minmax_norm, listMin, listMax, fnanmin, fnanmax, fle, fsub,
        fadd, fneg, fdiv, c10A, c10B]
    rw [hB]
    rfl

/-- C10 (amended): under finite indicator values with distinct column
minimum and maximum, min-max normalisation preserves order: a record with
at least as large a median income has at least as large an income score,
and a record with at least as large a homeownership rate has at most as
large an ownership score; an infinite rate instead produces a nan score
for which the comparison fails. -/
theorem normalization_monotone (l : List RegionRecord) (r1 r2 : RegionRecord)
    (h1 : r1 ∈ l) (h2 : r2 ∈ l) :
    ((∀ v ∈ l.map fun s => s.median_income, ∃ p, v = FVal.val p) →
      listMin (l.map fun s => s.median_income) ≠ listMax (l.map fun s => s.median_income) →
      ∀ i1 i2, r1.median_income = FVal.val i1 → r2.median_income = FVal.val i2 → i2 ≤ i1 →
      fle (income_score l r2) (income_score l r1) = true) ∧
    ((∀ v ∈ l.map fun s => s.homeownership_rate, ∃ p, v = FVal.val p) →
      listMin (l.map fun s => s.homeownership_rate) ≠
        listMax (l.map fun s => s.homeownership_rate) →
      ∀ o1 o2, r1.homeownership_rate = FVal.val o1 → r2.homeownership_rate = FVal.val o2 →
      o2 ≤ o1 →
      fle (ownership_score l r1) (ownership_score l r2) = true) := by
  have hne : l ≠ [] := List.ne_nil_of_mem h1
  have hnemap : ∀ f : RegionRecord → FVal, l.map f ≠ [] := by
    intro f hmap
    exact hne (List.map_eq_nil_iff.1 hmap)
  constructor
  · intro hall hd i1 i2 hi1 hi2 hle12
    obtain ⟨m, M, hm, hM, hlt, hmx1, hxM1, hres1⟩ := minmax_norm_val _ hall (hnemap _) hd i1
      (by rw [← hi1]; exact List.mem_map_of_mem _ h1)
    obtain ⟨m2, M2, hm2, hM2, _, _, _, hres2⟩ := minmax_norm_val _ hall (hnemap _) hd i2
      (by rw [← hi2]; exact List.mem_map_of_mem _ h2)
    have hmm : m2 = m := FVal.val.inj (by rw [← hm2, hm])
    have hMM : M2 = M := FVal.val.inj (by rw [← hM2, hM])
    rw [income_score, income_score, hi1, hi2, hres1, hres2, hmm, hMM]
    show decide ((i2 - m) / (M - m) ≤ (i1 - m) / (M - m)) = true
    rw [decide_eq_true_eq]
    have hpos : (0 : ℚ) < M - m := sub_pos.2 hlt
    rw [div_le_div_iff₀ hpos hpos]
    exact mul_le_mul_of_nonneg_right (by linarith) (le_of_lt hpos)
  · intro hall hd o1 o2 ho1 ho2 hle12
    obtain ⟨m, M, hm, hM, hlt, hmx1, hxM1, hres1⟩ := minmax_norm_val _ hall (hnemap _) hd o1
      (by rw [← ho1]; exact List.mem_map_of_mem _ h1)
    obtain ⟨m2, M2, hm2, hM2, _, _, _, hres2⟩ := minmax_norm_val _ hall (hnemap _) hd o2
      (by rw [← ho2]; exact List.mem_map_of_mem _ h2)
    have hmm : m2 = m := FVal.val.inj (by rw [← hm2, hm])
    have hMM : M2 = M := FVal.val.inj (by rw [← hM2, hM])
    rw [ownership_score, ownership_score, ho1, ho2, hres1, hres2, hmm, hMM]
    show fle (fadd (FVal.val 1) (fneg (FVal.val ((o1 - m) / (M - m)))))
      (fadd (FVal.val 1) (fneg (FVal.val ((o2 - m) / (M - m))))) = true
    simp only [fneg, fadd, fle]
    rw [decide_eq_true_eq]
    have hpos : (0 : ℚ) < M - m := sub_pos.2 hlt
    have hdiv : (o2 - m) / (M - m) ≤ (o1 - m) / (M - m) := by
      rw [div_le_div_iff₀ hpos hpos]
      exact mul_le_mul_of_nonneg_right (by linarith) (le_of_lt hpos)
    linarith

def w10A : RegionRecord := ⟨"a", .val 100, .val 500, .val 10, .val 5, .val 30⟩

def w10B : RegionRecord := ⟨"b", .val 200, .val 900, .val 40, .val 9, .val 70⟩

theorem normalization_monotone_witness :
    fle (income_score [w10A, w10B] w10A) (income_score [w10A, w10B] w10B) = true ∧
    fle (ownership_score [w10A, w10B] w10B) (ownership_score [w10A, w10B] w10A) = true := by
  have h := normalization_monotone [w10A, w10B] w10B w10A (by simp) (by simp)
  have hallI : ∀ v ∈ [w10A, w10B].map fun s => s.median_income, ∃ p, v = FVal.val p := by
    intro v hv
    rcases List.mem_cons.1 hv with rfl | hv2
    · exact ⟨100, rfl⟩
    · rcases List.mem_singleton.1 hv2 with rfl
      exact ⟨200, rfl⟩
  have hallO : ∀ v ∈ [w10A, w10B].map fun s => s.homeownership_rate, ∃ p, v = FVal.val p := by
    intro v hv
    rcases List.mem_cons.1 hv with rfl | hv2
    · exact ⟨30, rfl⟩
    · rcases List.mem_singleton.1 hv2 with rfl
      exact ⟨70, rfl⟩
  have hdI : listMin ([w10A, w10B].map fun s => s.median_income) ≠
      listMax ([w10A, w10B].map fun s => s.median_income) := by
    norm_num [listMin, listMax, fnanmin, fnanmax, fle, w10A, w10B]
  have hdO : listMin ([w10A, w10B].map fun s => s.homeownership_rate) ≠
      listMax ([w10A, w10B].map fun s => s.homeownership_rate) := by
    norm_num [listMin, listMax, fnanmin, fnanmax, fle, w10A, w10B]
  exact ⟨h.1 hallI hdI 200 100 rfl rfl (by norm_num),
    h.2 hallO hdO 70 30 rfl rfl (by norm_num)⟩
